import Mathlib

/-!
Shallow embedding of the CatchMeow dashboard engine (src/script.js):
metric normalization (the percentage computations of updateMetricBox
and updateMetrics), metric classification (getMetricColor),
session-analysis synthesis (generateFullSessionResults,
generateSingleFileResults, simulateAudioAnalysis), the upload pipeline
(handleFileUpload, updateGUIWithResults) and the leaderboard
(renderLeaderboard, addNewPlayer, removeLastPlayer).

Conventions of the embedding:
- JS numbers are embedded as rationals (all arithmetic the engine
  performs is exact linear arithmetic, rounding and clamping).
- Each `Math.random()` draw is an explicit parameter `r`, constrained
  by `0 ≤ r` and `r < 1` in the theorems.
- The shuffle `arr.sort(() => 0.5 - Math.random())` uses an
  inconsistent comparator, so ECMAScript leaves the resulting order
  implementation-defined; the one guarantee is that the result is a
  permutation of the input, so it is embedded as an arbitrary
  permutation parameter.
- `Math.round(x)` is `⌊x + 1/2⌋` and `Math.floor(x)` is `⌊x⌋`.
-/

namespace CatchMeow

/-- ECMAScript `Math.round`: floor of x + 1/2. -/
def jsRound (x : ℚ) : ℤ := ⌊x + 1/2⌋

/-- ECMAScript `Math.floor`. -/
def jsFloor (x : ℚ) : ℤ := ⌊x⌋

/-- `getMetricColor(metricType, value, percentage)` from script.js:
the switch over the five metric-type strings, with the
`'pause-ratio-good'` default fallback for any other string. -/
def getMetricColor (metricType : String) (value percentage : ℚ) : String :=
  if metricType = "pause-ratio" then
    if percentage ≤ 10 then "pause-ratio-excellent"
    else if percentage ≤ 20 then "pause-ratio-good"
    else if percentage ≤ 30 then "pause-ratio-fair"
    else if percentage ≤ 40 then "pause-ratio-poor"
    else "pause-ratio-bad"
  else if metricType = "pause-count" then
    if value ≤ 5 then "pause-count-excellent"
    else if value ≤ 15 then "pause-count-good"
    else if value ≤ 25 then "pause-count-fair"
    else if value ≤ 35 then "pause-count-poor"
    else "pause-count-bad"
  else if metricType = "mean-f0" then
    if value < 80 then "mean-f0-low"
    else if value ≤ 120 then "mean-f0-normal-low"
    else if value ≤ 180 then "mean-f0-normal-mid"
    else if value ≤ 250 then "mean-f0-normal-high"
    else "mean-f0-high"
  else if metricType = "mean-energy" then
    if value < 10 then "mean-energy-very-low"
    else if value < 30 then "mean-energy-low"
    else if value ≤ 70 then "mean-energy-optimal"
    else if value ≤ 85 then "mean-energy-high"
    else "mean-energy-very-high"
  else if metricType = "max-energy" then
    if value < 15 then "max-energy-very-low"
    else if value < 35 then "max-energy-low"
    else if value ≤ 75 then "max-energy-normal"
    else if value ≤ 90 then "max-energy-high"
    else "max-energy-very-high"
  else "pause-ratio-good"

/-- The percentage computation of `updateMetricBox` in script.js: the
switch on `metricType` with keys in snake_case, default branch
`min(100, max(0, value))`. -/
def metricBoxPercentage (metricType : String) (value : ℚ) : ℚ :=
  if metricType = "pause_ratio" then min 100 (value * 10)
  else if metricType = "pause_count" then min 100 (value / 30 * 100)
  else if metricType = "mean_f0" then min 100 (max 0 ((value - 50) / 300 * 100))
  else if metricType = "mean_energy" then min 100 (max 0 value)
  else if metricType = "max_energy" then min 100 (max 0 value)
  else min 100 (max 0 value)

/-- The five fields `updateMetrics` in script.js reads off its
argument object (each guarded by an `!== undefined` check). -/
inductive MetricsDataField
  | pauseRatio | pauseCount | meanF0 | meanEnergy | maxEnergy
deriving DecidableEq

/-- The percentage computation of `updateMetrics` in script.js, per
field of the metricsData argument. -/
def updateMetricsPercentage : MetricsDataField → ℚ → ℚ
  | .pauseRatio, v => min (v * 100) 100
  | .pauseCount, v => min (v / 50 * 100) 100
  | .meanF0, v => min (max ((v - 50) / 250 * 100) 0) 100
  | .meanEnergy, v => min v 100
  | .maxEnergy, v => min v 100

/-- The `metricMapping` table of `updateMetricBoxes` in script.js,
pairing the css-class key passed to `getMetricColor` with the
snake_case metric key used for the percentage computation. -/
def metricMapping : List (String × String) :=
  [("pause-ratio", "pause_ratio"),
   ("pause-count", "pause_count"),
   ("mean-f0", "mean_f0"),
   ("mean-energy", "mean_energy"),
   ("max-energy", "max_energy")]

/-- The five tier keys `getMetricColor` can return for each recognized
metric type, in bucket order (from the five return statements of the
corresponding case in script.js). -/
def tierKeysFor (t : String) : List String :=
  if t = "pause-ratio" then
    ["pause-ratio-excellent", "pause-ratio-good", "pause-ratio-fair",
     "pause-ratio-poor", "pause-ratio-bad"]
  else if t = "pause-count" then
    ["pause-count-excellent", "pause-count-good", "pause-count-fair",
     "pause-count-poor", "pause-count-bad"]
  else if t = "mean-f0" then
    ["mean-f0-low", "mean-f0-normal-low", "mean-f0-normal-mid",
     "mean-f0-normal-high", "mean-f0-high"]
  else if t = "mean-energy" then
    ["mean-energy-very-low", "mean-energy-low", "mean-energy-optimal",
     "mean-energy-high", "mean-energy-very-high"]
  else if t = "max-energy" then
    ["max-energy-very-low", "max-energy-low", "max-energy-normal",
     "max-energy-high", "max-energy-very-high"]
  else []

/-- The `metrics` object of an analysis result (script.js,
generateFullSessionResults / generateSingleFileResults). `pause_ratio`
keeps a decimal, the other four are produced by Math.round/Math.floor
and are integers. -/
structure Metrics where
  pause_ratio : ℚ
  pause_count : ℤ
  mean_f0 : ℤ
  mean_energy : ℤ
  max_energy : ℤ
deriving DecidableEq

/-- The result object returned by the synthesizer and the backend
(script.js). `error` is only present on `success:false` responses. -/
structure AnalysisResult where
  success : Bool
  bluff_score : ℚ
  confidence : ℚ
  reasons : List String
  metrics : Metrics
  analysis_type : String
  files_analyzed : ℕ
  error : Option String := none
deriving DecidableEq

/-- The `Math.random()` draws consumed by one call of
`generateFullSessionResults`, in source order. -/
structure FullSessionRand where
  rScore : ℚ
  rConf : ℚ
  rReasons : ℚ
  rPauseRatio : ℚ
  rPauseCount : ℚ
  rF0 : ℚ
  rMeanE : ℚ
  rMaxE : ℚ
deriving DecidableEq

/-- The `Math.random()` draws consumed by one call of
`generateSingleFileResults`, in source order. -/
structure SingleFileRand where
  rScore : ℚ
  rConf : ℚ
  rReasons : ℚ
  rPauseRatio : ℚ
  rPauseCount : ℚ
  rF0 : ℚ
  rMeanE : ℚ
  rMaxE : ℚ
deriving DecidableEq

/-- The 4-item reasons pool of `generateFullSessionResults`. -/
def fullSessionReasonsPool : List String :=
  ["Pause patterns differ from conversational baseline",
   "Pitch variation exceeds reading baseline",
   "Energy levels show stress indicators",
   "Speech rhythm changes detected"]

/-- The 5-item reasons pool of `generateSingleFileResults`. -/
def singleFileReasonsPool : List String :=
  ["High pause ratio detected",
   "Frequent pausing detected",
   "Unusual pitch patterns",
   "Energy levels indicate stress",
   "Speech patterns appear normal"]

/-- `generateFullSessionResults(files)` from script.js. `shuffled` is
the outcome of `reasons.sort(() => 0.5 - Math.random())`, embedded as
a permutation of `fullSessionReasonsPool` (hypothesis in the
theorems); `.slice(0, 2 + Math.floor(Math.random() * 2))` is
`List.take` of that count. `numFiles` is `files.length`. -/
def generateFullSessionResults (shuffled : List String) (rnd : FullSessionRand)
    (numFiles : ℕ) : AnalysisResult :=
  let baseScore : ℚ := 20 + rnd.rScore * 60
  let confidence : ℚ := 0.7 + rnd.rConf * 0.25
  { success := true
    bluff_score := (jsRound (baseScore * 10) : ℚ) / 10
    confidence := (jsRound (confidence * 100) : ℚ) / 100
    reasons := shuffled.take (2 + jsFloor (rnd.rReasons * 2)).toNat
    metrics :=
      { pause_ratio := (jsRound ((0.05 + rnd.rPauseRatio * 0.3) * 1000) : ℚ) / 10
        pause_count := jsFloor (3 + rnd.rPauseCount * 20)
        mean_f0 := jsRound (120 + rnd.rF0 * 80)
        mean_energy := jsRound (30 + rnd.rMeanE * 50)
        max_energy := jsRound (50 + rnd.rMaxE * 40) }
    analysis_type := "full_session_baseline"
    files_analyzed := numFiles }

/-- `generateSingleFileResults(file)` from script.js. The `file`
parameter is unused in the source body (so it is an `Option`, matching
the JS call sites that may pass `undefined`); `shuffled` embeds the
random-comparator sort of the 5-item pool, and `.slice(0, 1 +
Math.floor(Math.random() * 2))` is `List.take` of that count. -/
def generateSingleFileResults (file : Option String) (shuffled : List String)
    (rnd : SingleFileRand) : AnalysisResult :=
  let _ := file
  let baseScore : ℚ := 10 + rnd.rScore * 70
  let confidence : ℚ := 0.6 + rnd.rConf * 0.2
  { success := true
    bluff_score := (jsRound (baseScore * 10) : ℚ) / 10
    confidence := (jsRound (confidence * 100) : ℚ) / 100
    reasons := shuffled.take (1 + jsFloor (rnd.rReasons * 2)).toNat
    metrics :=
      { pause_ratio := (jsRound ((0.02 + rnd.rPauseRatio * 0.25) * 1000) : ℚ) / 10
        pause_count := jsFloor (1 + rnd.rPauseCount * 15)
        mean_f0 := jsRound (100 + rnd.rF0 * 100)
        mean_energy := jsRound (20 + rnd.rMeanE * 60)
        max_energy := jsRound (40 + rnd.rMaxE * 50) }
    analysis_type := "single_file"
    files_analyzed := 1 }

/-- `simulateAudioAnalysis(files)` from script.js: 5 files trigger the
full-session policy, 1 file the single-file policy on `files[0]`, and
any other count the single-file policy on `files[files.length - 1]`.
Files are identified by name. -/
def simulateAudioAnalysis (files : List String) (shufFull shufSingle : List String)
    (rndFull : FullSessionRand) (rndSingle : SingleFileRand) : AnalysisResult :=
  if files.length = 5 then
    generateFullSessionResults shufFull rndFull files.length
  else if files.length = 1 then
    generateSingleFileResults files.head? shufSingle rndSingle
  else
    generateSingleFileResults files.getLast? shufSingle rndSingle

/-- A `{ name, score }` entry of the global `leaderboardData` array in
script.js. -/
structure Player where
  name : String
  score : ℤ
deriving DecidableEq

/-- The descending-by-score stable sort
`leaderboardData.sort((a, b) => b.score - a.score)` (Array.prototype.sort
is stable per ES2019; insertion sort computes the same stable order). -/
def sortByScoreDesc (d : List Player) : List Player :=
  d.insertionSort (fun a b => b.score ≤ a.score)

/-- The initial literal of the global `leaderboardData` array. -/
def initialLeaderboardData : List Player :=
  [⟨"Alice", 92⟩, ⟨"Bob", 87⟩, ⟨"Charlie", 81⟩, ⟨"Diana", 76⟩]

/-- `renderLeaderboard()` from script.js: it sorts `leaderboardData`
IN PLACE (Array.prototype.sort mutates), so the stored array after a
render is the sorted one; the embedding returns the new array value. -/
def renderLeaderboard (d : List Player) : List Player :=
  sortByScoreDesc d

/-- The ranked view `renderLeaderboard` paints: rank is `index + 1`
over the sorted array. -/
def rankedView (d : List Player) : List (ℕ × Player) :=
  (renderLeaderboard d).enum.map (fun ip => (ip.1 + 1, ip.2))

/-- Insertion as performed by `addNewPlayer` in script.js:
`leaderboardData.push(...)` followed by `renderLeaderboard()` (which
re-sorts the stored array in place). -/
def addNewPlayer (d : List Player) (p : Player) : List Player :=
  renderLeaderboard (d ++ [p])

/-- `removeLastPlayer()` from script.js: `leaderboardData.pop()` (the
last element of the stored array) followed by `renderLeaderboard()`;
returns the new array and the removed player (none when empty). -/
def removeLastPlayer (d : List Player) : List Player × Option Player :=
  match d.getLast? with
  | some p => (renderLeaderboard d.dropLast, some p)
  | none => (d, none)

/-- A rendered `.player-item` of the class-managed DOM leaderboard
(`addPlayerToLeaderboard` stores `Math.round(score)` as the text). -/
structure DomPlayer where
  name : String
  score : ℤ
deriving DecidableEq

/-- The dashboard state the upload pipeline mutates: final-score text,
metric boxes, the DOM leaderboard items, the progress indicator, and
`this.currentAnalysis`. -/
structure GuiState where
  finalScore : Option ℤ
  metricsShown : Option Metrics
  domLeaderboard : List DomPlayer
  progressVisible : Bool
  currentAnalysis : Option AnalysisResult
deriving DecidableEq

/-- The GUI state of a freshly loaded page. -/
def initialGuiState : GuiState :=
  { finalScore := none
    metricsShown := none
    domLeaderboard := []
    progressVisible := false
    currentAnalysis := none }

/-- `addPlayerToLeaderboard(name, score)` + `sortLeaderboard()` from
script.js: append the item (score rendered rounded), then stable-sort
all items descending by score. -/
def addPlayerToLeaderboard (d : List DomPlayer) (playerName : String)
    (score : ℚ) : List DomPlayer :=
  (d ++ [({ name := playerName, score := jsRound score } : DomPlayer)]).insertionSort
    (fun a b => b.score ≤ a.score)

/-- `updateGUIWithResults(results)` from script.js: on
`success:false` it logs and returns, leaving every part of the state
untouched; otherwise it updates the score display, the metric boxes,
the leaderboard (new player named `Player_<timestamp>`, passed in as
`playerName`), and stores `currentAnalysis`. -/
def updateGUIWithResults (playerName : String) (results : AnalysisResult)
    (s : GuiState) : GuiState :=
  if results.success = false then s
  else
    { finalScore := some (jsRound results.bluff_score)
      metricsShown := some results.metrics
      domLeaderboard := addPlayerToLeaderboard s.domLeaderboard playerName results.bluff_score
      progressVisible := s.progressVisible
      currentAnalysis := some results }

/-- A JS Promise value as it exists at the moment an async call is NOT
awaited: its eventual resolution value is still pending. -/
structure JsPromise (α : Type) where
  resolvesTo : α

/-- JS truthiness of a Promise object: every object is truthy, whatever
the Promise will resolve to. -/
def JsPromise.truthy {α : Type} (_p : JsPromise α) : Bool := true

/-- The environment of one upload: whether `fetch('/health')` resolves
ok (what `isBackendAvailable` would resolve to), and what
`sendFilesToBackend` yields — a parsed result, or a thrown error
message (fetch rejection or the non-ok `Backend error: ...` throw). -/
structure Backend where
  healthOk : Bool
  analyze : Except String AnalysisResult

/-- The observable outcome of `handleFileUpload`: the final GUI state
and the alert message shown, if any. -/
structure UploadOutcome where
  state : GuiState
  alert : Option String
deriving DecidableEq

/-- `handleFileUpload(event)` from script.js, after extension
filtering (`files` is the filtered list). Empty selection alerts and
returns before the progress indicator is shown. Otherwise the source
runs `if (this.isBackendAvailable()) { ... }`: the async call is NOT
awaited, so the condition tests the truthiness of the Promise object
itself — embedded via `JsPromise.truthy`. A thrown backend error is
caught and alerted (`'Audio analysis failed: ' + error.message`); the
`finally` block hides the progress indicator on every path that
reached the `try`. -/
def handleFileUpload (files : List String) (backend : Backend)
    (playerName : String) (shufFull shufSingle : List String)
    (rndFull : FullSessionRand) (rndSingle : SingleFileRand)
    (s : GuiState) : UploadOutcome :=
  if files.length = 0 then
    { state := s, alert := some "Please select audio files (.wav, .mp3, or .m4a)" }
  else
    let s1 : GuiState := { s with progressVisible := true }
    if (JsPromise.mk backend.healthOk).truthy then
      match backend.analyze with
      | .ok results =>
          let s2 := updateGUIWithResults playerName results s1
          { state := { s2 with progressVisible := false }, alert := none }
      | .error msg =>
          { state := { s1 with progressVisible := false }
            alert := some ("Audio analysis failed: " ++ msg) }
    else
      let results := simulateAudioAnalysis files shufFull shufSingle rndFull rndSingle
      let s2 := updateGUIWithResults playerName results s1
      { state := { s2 with progressVisible := false }, alert := none }

/-- The mean-f0 bucket rule as the claim words it ("the first two
buckets of mean-f0 ... use strict `<`"), to be compared with the
source's `getMetricColor`, whose second mean-f0 bucket is `value <=
120`. -/
def meanF0TierPerClaim (value : ℚ) : String :=
  if value < 80 then "mean-f0-low"
  else if value < 120 then "mean-f0-normal-low"
  else if value ≤ 180 then "mean-f0-normal-mid"
  else if value ≤ 250 then "mean-f0-normal-high"
  else "mean-f0-high"

/-- An arbitrary `success:false` analysis result, used to exercise the
failure path of `updateGUIWithResults`. -/
def sampleFailureResult : AnalysisResult :=
  { success := false
    bluff_score := 0
    confidence := 0
    reasons := []
    metrics := ⟨0, 0, 0, 0, 0⟩
    analysis_type := ""
    files_analyzed := 0
    error := some "analysis failed" }

/-- Evaluation helper: `jsRound x = z` whenever `z ≤ x + 1/2 < z + 1`. -/
lemma jsRound_eq (x : ℚ) (z : ℤ) (h1 : (z : ℚ) ≤ x + 1/2) (h2 : x + 1/2 < z + 1) :
    jsRound x = z := by
  unfold jsRound
  exact Int.floor_eq_iff.mpr ⟨h1, by linarith⟩

/-- C1 counterexample: after inserting Eve:99 into the initial
leaderboard, `removeLastPlayer()` does NOT remove the last-inserted
entry (Eve) and does NOT restore the original 4-entry ranked order:
`renderLeaderboard` sorts the `leaderboardData` array in place, so the
`pop()` hits the lowest-ranked entry instead. -/
theorem removeLastPlayer_not_insertion_order_cex :
    (removeLastPlayer (addNewPlayer initialLeaderboardData ⟨"Eve", 99⟩)).2
      ≠ some ⟨"Eve", 99⟩ ∧
    rankedView (removeLastPlayer (addNewPlayer initialLeaderboardData ⟨"Eve", 99⟩)).1
      ≠ rankedView initialLeaderboardData := by
  decide

/-- C1 (amended): inserting Eve:99 yields the ranked view
[Eve, Alice, Bob, Charlie, Diana] with ranks 1..5, and one
`removeLastPlayer()` removes Diana — the last element of the in-place
re-sorted array, i.e. the lowest-ranked entry, not the last-inserted
one — leaving ranked order [Eve, Alice, Bob, Charlie]. -/
theorem removeLastPlayer_pops_lowest_ranked :
    rankedView (addNewPlayer initialLeaderboardData ⟨"Eve", 99⟩)
      = [(1, ⟨"Eve", 99⟩), (2, ⟨"Alice", 92⟩), (3, ⟨"Bob", 87⟩),
         (4, ⟨"Charlie", 81⟩), (5, ⟨"Diana", 76⟩)] ∧
    removeLastPlayer (addNewPlayer initialLeaderboardData ⟨"Eve", 99⟩)
      = ([⟨"Eve", 99⟩, ⟨"Alice", 92⟩, ⟨"Bob", 87⟩, ⟨"Charlie", 81⟩],
         some ⟨"Diana", 76⟩) := by
  decide

/-- C2: with the backend unreachable (health probe would resolve
false, the analyze fetch throws), `handleFileUpload` does NOT fall
back to the Synthesizer: the un-awaited `isBackendAvailable()` Promise
is truthy, so the backend branch is always taken and the failure is
surfaced to the user as an alert, with no analysis consumed and the
GUI left in its initial state. -/
theorem handleFileUpload_unreachable_backend_surfaces_error :
    (handleFileUpload ["recording1.wav"]
        { healthOk := false, analyze := .error "Failed to fetch" } "Player_1"
        fullSessionReasonsPool singleFileReasonsPool
        ⟨0, 0, 0, 0, 0, 0, 0, 0⟩ ⟨0, 0, 0, 0, 0, 0, 0, 0⟩ initialGuiState).alert
      = some "Audio analysis failed: Failed to fetch" ∧
    (handleFileUpload ["recording1.wav"]
        { healthOk := false, analyze := .error "Failed to fetch" } "Player_1"
        fullSessionReasonsPool singleFileReasonsPool
        ⟨0, 0, 0, 0, 0, 0, 0, 0⟩ ⟨0, 0, 0, 0, 0, 0, 0, 0⟩ initialGuiState).state
      = initialGuiState := by
  decide

/-- C3: at the draw `rPauseRatio = 0`, `synthesize(5)` produces
`metrics.pause_ratio = 5.0`, outside the documented [0.5, 3.5] range:
the source computes `round((0.05 + r*0.3)*1000)/10`, which lands in
[5.0, 35.0], contradicting its own `// 0.5-3.5%` comment. -/
theorem fullSession_pause_ratio_outside_documented_range :
    (generateFullSessionResults fullSessionReasonsPool
        ⟨0, 0, 0, 0, 0, 0, 0, 0⟩ 5).metrics.pause_ratio = 5 ∧
    ¬ (generateFullSessionResults fullSessionReasonsPool
        ⟨0, 0, 0, 0, 0, 0, 0, 0⟩ 5).metrics.pause_ratio ≤ 3.5 := by
  have h : (generateFullSessionResults fullSessionReasonsPool
      ⟨0, 0, 0, 0, 0, 0, 0, 0⟩ 5).metrics.pause_ratio
      = (jsRound ((0.05 + (0 : ℚ) * 0.3) * 1000) : ℚ) / 10 := rfl
  rw [h, jsRound_eq ((0.05 + (0 : ℚ) * 0.3) * 1000) 50 (by norm_num) (by norm_num)]
  norm_num

/-- C4 counterexample: for the raw value -1 the pause-ratio
normalization of `updateMetricBox` returns -10 and the one of
`updateMetrics` returns -100; neither clamps below at 0, so the output
is not in [0, 100] for every finite input. -/
theorem normalizer_negative_input_cex :
    metricBoxPercentage "pause_ratio" (-1) = -10 ∧
    updateMetricsPercentage MetricsDataField.pauseRatio (-1) = -100 ∧
    ¬ (0 ≤ metricBoxPercentage "pause_ratio" (-1)) := by
  refine ⟨?_, ?_, ?_⟩ <;> norm_num [metricBoxPercentage, updateMetricsPercentage]

/-- C4 (amended): both normalization call sites always clamp above at
100, and for nonnegative raw values the output lies in [0, 100]; the
lower clamp is missing for pause-ratio and pause-count (and for the
energy metrics of `updateMetrics`), so negative raw values can produce
negative percentages. -/
theorem normalizer_upper_clamp_and_nonneg_inputs
    (t : String) (k : MetricsDataField) (v : ℚ) :
    metricBoxPercentage t v ≤ 100 ∧ updateMetricsPercentage k v ≤ 100 ∧
    (0 ≤ v → 0 ≤ metricBoxPercentage t v ∧ 0 ≤ updateMetricsPercentage k v) := by
  refine ⟨?_, ?_, fun h => ⟨?_, ?_⟩⟩
  · unfold metricBoxPercentage
    split_ifs <;> exact min_le_left _ _
  · cases k <;> exact min_le_right _ _
  · unfold metricBoxPercentage
    split_ifs <;> refine le_min (by norm_num) ?_
    · linarith
    · linarith
    · exact le_max_left _ _
    · exact le_max_left _ _
    · exact le_max_left _ _
    · exact le_max_left _ _
  · cases k <;> simp only [updateMetricsPercentage, le_min_iff] <;>
      exact ⟨by first | linarith | exact le_max_right _ _, by norm_num⟩

/-- C4 witness: the amended normalizer bounds at the concrete input
pause-ratio raw value 3. -/
theorem normalizer_upper_clamp_and_nonneg_inputs_witness :
    metricBoxPercentage "pause_ratio" 3 ≤ 100 ∧
    updateMetricsPercentage MetricsDataField.pauseRatio 3 ≤ 100 ∧
    ((0 : ℚ) ≤ 3 → 0 ≤ metricBoxPercentage "pause_ratio" 3 ∧
      0 ≤ updateMetricsPercentage MetricsDataField.pauseRatio 3) :=
  normalizer_upper_clamp_and_nonneg_inputs "pause_ratio" MetricsDataField.pauseRatio 3

/-- C5 counterexample: the single-file synthesizer (reached for every
upload batch that is not exactly 5 files, so its results ARE results
"produced by the Synthesizer") returns a reasons sequence of length 1
when the count draw is below 0.5, violating the 2–4 lower bound. -/
theorem singleFile_reasons_length_one_cex :
    (generateSingleFileResults none singleFileReasonsPool
        ⟨0, 0, 0, 0, 0, 0, 0, 0⟩).reasons.length = 1 ∧
    ¬ 2 ≤ (generateSingleFileResults none singleFileReasonsPool
        ⟨0, 0, 0, 0, 0, 0, 0, 0⟩).reasons.length := by
  have h : (generateSingleFileResults none singleFileReasonsPool
      ⟨0, 0, 0, 0, 0, 0, 0, 0⟩).reasons
      = singleFileReasonsPool.take (1 + jsFloor ((0 : ℚ) * 2)).toNat := rfl
  rw [h]
  have hf : jsFloor ((0 : ℚ) * 2) = 0 := by
    unfold jsFloor; norm_num
  rw [hf]
  decide

/-- C5 (amended): every synthesized reasons sequence is drawn without
replacement from its pool and is non-repeating; the full-session
policy yields 2–3 entries of the 4-item pool and the single-file
policy 1–2 entries of the 5-item pool (so 2–4 holds for full-session
results but not for single-file results). -/
theorem synthesizer_reasons_distinct_within_pool
    (shufFull shufSingle : List String) (rndFull : FullSessionRand)
    (rndSingle : SingleFileRand) (numFiles : ℕ) (file : Option String)
    (hPF : shufFull.Perm fullSessionReasonsPool)
    (hPS : shufSingle.Perm singleFileReasonsPool)
    (hF0 : 0 ≤ rndFull.rReasons) (hF1 : rndFull.rReasons < 1)
    (hS0 : 0 ≤ rndSingle.rReasons) (hS1 : rndSingle.rReasons < 1) :
    (((generateFullSessionResults shufFull rndFull numFiles).reasons.length = 2 ∨
      (generateFullSessionResults shufFull rndFull numFiles).reasons.length = 3) ∧
     (generateFullSessionResults shufFull rndFull numFiles).reasons.Nodup ∧
     ∀ x ∈ (generateFullSessionResults shufFull rndFull numFiles).reasons,
       x ∈ fullSessionReasonsPool) ∧
    (((generateSingleFileResults file shufSingle rndSingle).reasons.length = 1 ∨
      (generateSingleFileResults file shufSingle rndSingle).reasons.length = 2) ∧
     (generateSingleFileResults file shufSingle rndSingle).reasons.Nodup ∧
     ∀ x ∈ (generateSingleFileResults file shufSingle rndSingle).reasons,
       x ∈ singleFileReasonsPool) := by
  have heF : (generateFullSessionResults shufFull rndFull numFiles).reasons
      = shufFull.take (2 + jsFloor (rndFull.rReasons * 2)).toNat := rfl
  have heS : (generateSingleFileResults file shufSingle rndSingle).reasons
      = shufSingle.take (1 + jsFloor (rndSingle.rReasons * 2)).toNat := rfl
  have hfF : jsFloor (rndFull.rReasons * 2) = 0 ∨ jsFloor (rndFull.rReasons * 2) = 1 := by
    have a : (0 : ℤ) ≤ ⌊rndFull.rReasons * 2⌋ := Int.floor_nonneg.mpr (by linarith)
    have b : ⌊rndFull.rReasons * 2⌋ < 2 := Int.floor_lt.mpr (by push_cast; linarith)
    unfold jsFloor; omega
  have hfS : jsFloor (rndSingle.rReasons * 2) = 0 ∨ jsFloor (rndSingle.rReasons * 2) = 1 := by
    have a : (0 : ℤ) ≤ ⌊rndSingle.rReasons * 2⌋ := Int.floor_nonneg.mpr (by linarith)
    have b : ⌊rndSingle.rReasons * 2⌋ < 2 := Int.floor_lt.mpr (by push_cast; linarith)
    unfold jsFloor; omega
  have hlenF : shufFull.length = 4 := by rw [hPF.length_eq]; rfl
  have hlenS : shufSingle.length = 5 := by rw [hPS.length_eq]; rfl
  refine ⟨⟨?_, ?_, ?_⟩, ?_, ?_, ?_⟩
  · rw [heF, List.length_take, hlenF]
    rcases hfF with hf | hf <;> rw [hf] <;> decide
  · rw [heF]
    exact List.Nodup.sublist (List.take_sublist _ _) (hPF.nodup_iff.mpr (by decide))
  · intro x hx
    rw [heF] at hx
    exact hPF.subset (List.take_subset _ _ hx)
  · rw [heS, List.length_take, hlenS]
    rcases hfS with hf | hf <;> rw [hf] <;> decide
  · rw [heS]
    exact List.Nodup.sublist (List.take_sublist _ _) (hPS.nodup_iff.mpr (by decide))
  · intro x hx
    rw [heS] at hx
    exact hPS.subset (List.take_subset _ _ hx)

/-- C5 witness: the amended reason-selection bounds at the identity
shuffle and count draws 0. -/
theorem synthesizer_reasons_distinct_within_pool_witness :
    (((generateFullSessionResults fullSessionReasonsPool
          ⟨0, 0, 0, 0, 0, 0, 0, 0⟩ 5).reasons.length = 2 ∨
      (generateFullSessionResults fullSessionReasonsPool
          ⟨0, 0, 0, 0, 0, 0, 0, 0⟩ 5).reasons.length = 3) ∧
     (generateFullSessionResults fullSessionReasonsPool
          ⟨0, 0, 0, 0, 0, 0, 0, 0⟩ 5).reasons.Nodup ∧
     ∀ x ∈ (generateFullSessionResults fullSessionReasonsPool
          ⟨0, 0, 0, 0, 0, 0, 0, 0⟩ 5).reasons, x ∈ fullSessionReasonsPool) ∧
    (((generateSingleFileResults none singleFileReasonsPool
          ⟨0, 0, 0, 0, 0, 0, 0, 0⟩).reasons.length = 1 ∨
      (generateSingleFileResults none singleFileReasonsPool
          ⟨0, 0, 0, 0, 0, 0, 0, 0⟩).reasons.length = 2) ∧
     (generateSingleFileResults none singleFileReasonsPool
          ⟨0, 0, 0, 0, 0, 0, 0, 0⟩).reasons.Nodup ∧
     ∀ x ∈ (generateSingleFileResults none singleFileReasonsPool
          ⟨0, 0, 0, 0, 0, 0, 0, 0⟩).reasons, x ∈ singleFileReasonsPool) :=
  synthesizer_reasons_distinct_within_pool fullSessionReasonsPool singleFileReasonsPool
    ⟨0, 0, 0, 0, 0, 0, 0, 0⟩ ⟨0, 0, 0, 0, 0, 0, 0, 0⟩ 5 none
    (List.Perm.refl _) (List.Perm.refl _)
    (by norm_num) (by norm_num) (by norm_num) (by norm_num)

/-- C6 counterexample: at mean-f0 value exactly 120 the source
classifier returns normal-low (its second bucket is inclusive,
`value <= 120`), while the claimed rule — first two buckets of mean-f0
strict `<` — would return normal-mid. -/
theorem meanF0_second_bucket_inclusive_cex :
    getMetricColor "mean-f0" 120 0 = "mean-f0-normal-low" ∧
    meanF0TierPerClaim 120 = "mean-f0-normal-mid" ∧
    getMetricColor "mean-f0" 120 0 ≠ meanF0TierPerClaim 120 := by
  refine ⟨?_, ?_, ?_⟩ <;> (norm_num [getMetricColor, meanF0TierPerClaim]; try simp)

/-- C6 (amended): bucket boundaries are inclusive (`<=`) except the
FIRST bucket of mean-f0 and the first two buckets of mean-energy and
max-energy, which use strict `<`. Concretely: pause-count 5 is
excellent and 5.0001 good; mean-f0 80 is normal-low (not low), 120 is
still normal-low and 120.0001 is normal-mid; mean-energy 10 is low
(not very-low) and 30 is optimal; max-energy 15 is low and 35 is
normal. -/
theorem classifier_boundary_evaluations :
    getMetricColor "pause-count" 5 0 = "pause-count-excellent" ∧
    getMetricColor "pause-count" 5.0001 0 = "pause-count-good" ∧
    getMetricColor "mean-f0" 80 0 = "mean-f0-normal-low" ∧
    getMetricColor "mean-f0" 120 0 = "mean-f0-normal-low" ∧
    getMetricColor "mean-f0" 120.0001 0 = "mean-f0-normal-mid" ∧
    getMetricColor "mean-energy" 10 0 = "mean-energy-low" ∧
    getMetricColor "mean-energy" 30 0 = "mean-energy-optimal" ∧
    getMetricColor "max-energy" 15 0 = "max-energy-low" ∧
    getMetricColor "max-energy" 35 0 = "max-energy-normal" ∧
    getMetricColor "pause-ratio" 0 10 = "pause-ratio-excellent" ∧
    getMetricColor "pause-ratio" 0 10.0001 = "pause-ratio-good" := by
  refine ⟨?_, ?_, ?_, ?_, ?_, ?_, ?_, ?_, ?_, ?_, ?_⟩ <;>
    (norm_num [getMetricColor]; try simp)

/-- Case analysis helper: for each of the five recognized metric-type
strings, `getMetricColor` returns one of that type's five tier keys,
whatever the value and percentage. -/
lemma getMetricColor_mem_tierKeys (t : String) (v p : ℚ)
    (ht : t = "pause-ratio" ∨ t = "pause-count" ∨ t = "mean-f0" ∨
          t = "mean-energy" ∨ t = "max-energy") :
    getMetricColor t v p ∈ tierKeysFor t := by
  rcases ht with rfl | rfl | rfl | rfl | rfl
  · have h : tierKeysFor "pause-ratio"
        = ["pause-ratio-excellent", "pause-ratio-good", "pause-ratio-fair",
           "pause-ratio-poor", "pause-ratio-bad"] := by decide
    rw [h]
    unfold getMetricColor
    rw [if_pos rfl]
    split_ifs <;> decide
  · have h : tierKeysFor "pause-count"
        = ["pause-count-excellent", "pause-count-good", "pause-count-fair",
           "pause-count-poor", "pause-count-bad"] := by decide
    rw [h]
    unfold getMetricColor
    rw [if_neg (by decide : ¬ ("pause-count" : String) = "pause-ratio"), if_pos rfl]
    split_ifs <;> decide
  · have h : tierKeysFor "mean-f0"
        = ["mean-f0-low", "mean-f0-normal-low", "mean-f0-normal-mid",
           "mean-f0-normal-high", "mean-f0-high"] := by decide
    rw [h]
    unfold getMetricColor
    rw [if_neg (by decide : ¬ ("mean-f0" : String) = "pause-ratio"),
      if_neg (by decide : ¬ ("mean-f0" : String) = "pause-count"), if_pos rfl]
    split_ifs <;> decide
  · have h : tierKeysFor "mean-energy"
        = ["mean-energy-very-low", "mean-energy-low", "mean-energy-optimal",
           "mean-energy-high", "mean-energy-very-high"] := by decide
    rw [h]
    unfold getMetricColor
    rw [if_neg (by decide : ¬ ("mean-energy" : String) = "pause-ratio"),
      if_neg (by decide : ¬ ("mean-energy" : String) = "pause-count"),
      if_neg (by decide : ¬ ("mean-energy" : String) = "mean-f0"), if_pos rfl]
    split_ifs <;> decide
  · have h : tierKeysFor "max-energy"
        = ["max-energy-very-low", "max-energy-low", "max-energy-normal",
           "max-energy-high", "max-energy-very-high"] := by decide
    rw [h]
    unfold getMetricColor
    rw [if_neg (by decide : ¬ ("max-energy" : String) = "pause-ratio"),
      if_neg (by decide : ¬ ("max-energy" : String) = "pause-count"),
      if_neg (by decide : ¬ ("max-energy" : String) = "mean-f0"),
      if_neg (by decide : ¬ ("max-energy" : String) = "mean-energy"), if_pos rfl]
    split_ifs <;> decide

/-- C7: for each of the five (css-class, metric-key) pairs the
dashboard wires together, `getMetricColor` applied to any raw value
and its `updateMetricBox` percentage returns one of that metric's five
tier keys, and for any unrecognized metric-type string it returns the
default `pause-ratio-good` — the classifier is total and never
fails. -/
theorem classifier_total_five_tiers_with_default
    (pr : String × String) (v : ℚ) (t : String) (p : ℚ)
    (hpr : pr ∈ metricMapping) (ht : t ∉ metricMapping.map Prod.fst) :
    getMetricColor pr.1 v (metricBoxPercentage pr.2 v) ∈ tierKeysFor pr.1 ∧
    getMetricColor t v p = "pause-ratio-good" := by
  constructor
  · apply getMetricColor_mem_tierKeys
    have hm : pr.1 ∈ metricMapping.map Prod.fst := List.mem_map_of_mem _ hpr
    simpa only [metricMapping, List.map_cons, List.map_nil, List.mem_cons,
      List.not_mem_nil, or_false] using hm
  · have h' := ht
    simp only [metricMapping, List.map_cons, List.map_nil, List.mem_cons,
      List.not_mem_nil, or_false, not_or] at h'
    obtain ⟨h1, h2, h3, h4, h5⟩ := h'
    unfold getMetricColor
    rw [if_neg h1, if_neg h2, if_neg h3, if_neg h4, if_neg h5]

/-- C7 witness: the classifier tiers at mean-f0 value 100 and the
default tier at the unrecognized type string. -/
theorem classifier_total_five_tiers_with_default_witness :
    getMetricColor "mean-f0" 100 (metricBoxPercentage "mean_f0" 100)
      ∈ tierKeysFor "mean-f0" ∧
    getMetricColor "speech-rate" 100 0 = "pause-ratio-good" :=
  classifier_total_five_tiers_with_default ("mean-f0", "mean_f0") 100 "speech-rate" 0
    (by decide) (by decide)

/-- C8: for every full-session synthesis, whatever the two uniform
draws in [0,1), the returned bluff score lies in [20, 80] and the
returned confidence in [0.70, 0.95] (both after rounding). -/
theorem fullSession_score_confidence_containment
    (shufFull : List String) (rnd : FullSessionRand) (numFiles : ℕ)
    (hs0 : 0 ≤ rnd.rScore) (hs1 : rnd.rScore < 1)
    (hc0 : 0 ≤ rnd.rConf) (hc1 : rnd.rConf < 1) :
    (20 ≤ (generateFullSessionResults shufFull rnd numFiles).bluff_score ∧
     (generateFullSessionResults shufFull rnd numFiles).bluff_score ≤ 80) ∧
    (0.70 ≤ (generateFullSessionResults shufFull rnd numFiles).confidence ∧
     (generateFullSessionResults shufFull rnd numFiles).confidence ≤ 0.95) := by
  have heS : (generateFullSessionResults shufFull rnd numFiles).bluff_score
      = (jsRound ((20 + rnd.rScore * 60) * 10) : ℚ) / 10 := rfl
  have heC : (generateFullSessionResults shufFull rnd numFiles).confidence
      = (jsRound ((0.7 + rnd.rConf * 0.25) * 100) : ℚ) / 100 := rfl
  have sLo : (200 : ℤ) ≤ jsRound ((20 + rnd.rScore * 60) * 10) := by
    unfold jsRound
    exact Int.le_floor.mpr (by push_cast; linarith)
  have sHi : jsRound ((20 + rnd.rScore * 60) * 10) ≤ 800 := by
    have h : jsRound ((20 + rnd.rScore * 60) * 10) < 801 := by
      unfold jsRound
      exact Int.floor_lt.mpr (by push_cast; linarith)
    omega
  have cLo : (70 : ℤ) ≤ jsRound ((0.7 + rnd.rConf * 0.25) * 100) := by
    unfold jsRound
    refine Int.le_floor.mpr ?_
    push_cast
    nlinarith [hc0]
  have cHi : jsRound ((0.7 + rnd.rConf * 0.25) * 100) ≤ 95 := by
    have h : jsRound ((0.7 + rnd.rConf * 0.25) * 100) < 96 := by
      unfold jsRound
      refine Int.floor_lt.mpr ?_
      push_cast
      nlinarith [hc1]
    omega
  have sLoQ : (200 : ℚ) ≤ (jsRound ((20 + rnd.rScore * 60) * 10) : ℚ) := by
    exact_mod_cast sLo
  have sHiQ : (jsRound ((20 + rnd.rScore * 60) * 10) : ℚ) ≤ 800 := by
    exact_mod_cast sHi
  have cLoQ : (70 : ℚ) ≤ (jsRound ((0.7 + rnd.rConf * 0.25) * 100) : ℚ) := by
    exact_mod_cast cLo
  have cHiQ : (jsRound ((0.7 + rnd.rConf * 0.25) * 100) : ℚ) ≤ 95 := by
    exact_mod_cast cHi
  rw [heS, heC]
  norm_num
  constructor
  · constructor <;> linarith
  · constructor <;> linarith

/-- C8 witness: the containment at both draws equal to 0 (bluff score
20.0, confidence 0.70). -/
theorem fullSession_score_confidence_containment_witness :
    (20 ≤ (generateFullSessionResults fullSessionReasonsPool
        ⟨0, 0, 0, 0, 0, 0, 0, 0⟩ 5).bluff_score ∧
     (generateFullSessionResults fullSessionReasonsPool
        ⟨0, 0, 0, 0, 0, 0, 0, 0⟩ 5).bluff_score ≤ 80) ∧
    (0.70 ≤ (generateFullSessionResults fullSessionReasonsPool
        ⟨0, 0, 0, 0, 0, 0, 0, 0⟩ 5).confidence ∧
     (generateFullSessionResults fullSessionReasonsPool
        ⟨0, 0, 0, 0, 0, 0, 0, 0⟩ 5).confidence ≤ 0.95) :=
  fullSession_score_confidence_containment fullSessionReasonsPool
    ⟨0, 0, 0, 0, 0, 0, 0, 0⟩ 5 (by norm_num) (by norm_num) (by norm_num) (by norm_num)

/-- C9: a `success:false` result bypasses every GUI update — the
score display, the metric boxes, the leaderboard (no partial entry)
and `currentAnalysis` are all left exactly as they were — and
`handleFileUpload` leaves the progress indicator hidden on every path
that reaches its try/finally (every non-empty upload batch). -/
theorem failure_result_leaves_gui_unchanged
    (playerName : String) (results : AnalysisResult) (s : GuiState)
    (files : List String) (backend : Backend) (shufFull shufSingle : List String)
    (rndFull : FullSessionRand) (rndSingle : SingleFileRand)
    (hfail : results.success = false) (hne : files ≠ []) :
    updateGUIWithResults playerName results s = s ∧
    (handleFileUpload files backend playerName shufFull shufSingle rndFull
        rndSingle s).state.progressVisible = false := by
  constructor
  · unfold updateGUIWithResults
    rw [if_pos hfail]
  · unfold handleFileUpload
    rw [if_neg (fun h => hne (List.length_eq_zero.mp h))]
    rcases backend with ⟨hOk, analyze⟩
    rcases analyze with msg | r
    · rfl
    · rfl

/-- C9 witness: the failure result with error string leaves the
initial GUI state untouched, and a one-file upload against an erroring
backend ends with the progress indicator hidden. -/
theorem failure_result_leaves_gui_unchanged_witness :
    updateGUIWithResults "Player_1" sampleFailureResult initialGuiState
      = initialGuiState ∧
    (handleFileUpload ["a.wav"] ⟨true, .error "Backend error: 500"⟩ "Player_1"
        fullSessionReasonsPool singleFileReasonsPool
        ⟨0, 0, 0, 0, 0, 0, 0, 0⟩ ⟨0, 0, 0, 0, 0, 0, 0, 0⟩
        initialGuiState).state.progressVisible = false :=
  failure_result_leaves_gui_unchanged "Player_1" sampleFailureResult initialGuiState
    ["a.wav"] ⟨true, .error "Backend error: 500"⟩ fullSessionReasonsPool
    singleFileReasonsPool ⟨0, 0, 0, 0, 0, 0, 0, 0⟩ ⟨0, 0, 0, 0, 0, 0, 0, 0⟩
    rfl (by decide)

/-- C10: for every non-empty upload batch whose size is neither 5 nor
1, `simulateAudioAnalysis` runs the single-file generator on the LAST
file of the batch, and the result reports `files_analyzed = 1` and
`analysis_type = "single_file"` — not the actual batch size. -/
theorem simulateAudioAnalysis_multi_uses_last_file_only
    (files : List String) (shufFull shufSingle : List String)
    (rndFull : FullSessionRand) (rndSingle : SingleFileRand)
    (h5 : files.length ≠ 5) (h1 : files.length ≠ 1) (hne : files ≠ []) :
    simulateAudioAnalysis files shufFull shufSingle rndFull rndSingle
      = generateSingleFileResults files.getLast? shufSingle rndSingle ∧
    (simulateAudioAnalysis files shufFull shufSingle rndFull rndSingle).files_analyzed
      = 1 ∧
    (simulateAudioAnalysis files shufFull shufSingle rndFull rndSingle).analysis_type
      = "single_file" ∧
    (simulateAudioAnalysis files shufFull shufSingle rndFull rndSingle).files_analyzed
      ≠ files.length := by
  have he : simulateAudioAnalysis files shufFull shufSingle rndFull rndSingle
      = generateSingleFileResults files.getLast? shufSingle rndSingle := by
    unfold simulateAudioAnalysis
    rw [if_neg h5, if_neg h1]
  refine ⟨he, ?_, ?_, ?_⟩ <;> rw [he]
  · rfl
  · rfl
  · have hp : 0 < files.length := List.length_pos.mpr hne
    have hfa : (generateSingleFileResults files.getLast? shufSingle rndSingle).files_analyzed
        = 1 := rfl
    rw [hfa]
    omega

/-- C10 witness: a two-file batch is analyzed as the single file
"b.wav" (the last one) with files_analyzed reported as 1, not 2. -/
theorem simulateAudioAnalysis_multi_uses_last_file_only_witness :
    simulateAudioAnalysis ["a.wav", "b.wav"] fullSessionReasonsPool
        singleFileReasonsPool ⟨0, 0, 0, 0, 0, 0, 0, 0⟩ ⟨0, 0, 0, 0, 0, 0, 0, 0⟩
      = generateSingleFileResults (["a.wav", "b.wav"] : List String).getLast?
          singleFileReasonsPool ⟨0, 0, 0, 0, 0, 0, 0, 0⟩ ∧
    (simulateAudioAnalysis ["a.wav", "b.wav"] fullSessionReasonsPool
        singleFileReasonsPool ⟨0, 0, 0, 0, 0, 0, 0, 0⟩
        ⟨0, 0, 0, 0, 0, 0, 0, 0⟩).files_analyzed = 1 ∧
    (simulateAudioAnalysis ["a.wav", "b.wav"] fullSessionReasonsPool
        singleFileReasonsPool ⟨0, 0, 0, 0, 0, 0, 0, 0⟩
        ⟨0, 0, 0, 0, 0, 0, 0, 0⟩).analysis_type = "single_file" ∧
    (simulateAudioAnalysis ["a.wav", "b.wav"] fullSessionReasonsPool
        singleFileReasonsPool ⟨0, 0, 0, 0, 0, 0, 0, 0⟩
        ⟨0, 0, 0, 0, 0, 0, 0, 0⟩).files_analyzed
      ≠ (["a.wav", "b.wav"] : List String).length :=
  simulateAudioAnalysis_multi_uses_last_file_only ["a.wav", "b.wav"]
    fullSessionReasonsPool singleFileReasonsPool ⟨0, 0, 0, 0, 0, 0, 0, 0⟩
    ⟨0, 0, 0, 0, 0, 0, 0, 0⟩ (by decide) (by decide) (by decide)

end CatchMeow
